import Mathlib

/-!
Shallow embedding of the highlighted-card Selection Controller
(src/src/components/card-grid.tsx) and the toast Notification Queue
(ToastProvider / useToast / Toast, src/src/components/ui/Card/card-body.tsx)
of the Automotive repository, together with proofs of its specification's
observable contracts.
-/

namespace Automotive

/-- `CardData` (card-grid.tsx lines 6-13): the record describing one card. -/
structure CardData where
  id : Int
  title : String
  description : String
  imageSrc : String
  buttonText : String
  buttonHref : Option String
deriving DecidableEq, Repr

/-- The `activeCardId` state of `CardGrid` (card-grid.tsx line 20):
`useState<number | null>(null)`. -/
abbrev SelectionState := Option Int

/-- The default middle index `Math.floor((cards.length - 1) / 2)`
(card-grid.tsx line 25). -/
def middleIndex (n : Nat) : Nat := (n - 1) / 2

/-- The `useEffect` body keyed on `[cards]` (card-grid.tsx lines 23-29):
when `cards.length > 0`, set `activeCardId` to
`cards[Math.floor((cards.length - 1) / 2)].id`; otherwise the state is
left untouched. This is the Selection Controller's `initialize`. -/
def initializeSelection (cards : List CardData) (s : SelectionState) : SelectionState :=
  match cards.get? (middleIndex cards.length) with
  | some middleCard => some middleCard.id
  | none => s

/-- `handleButtonClick` (card-grid.tsx lines 31-33): unconditionally
`setActiveCardId(cardId)`. This is the Selection Controller's `select`. -/
def selectCard (cardId : Int) (_s : SelectionState) : SelectionState :=
  some cardId

/-- The per-card `isHighlighted` computation (card-grid.tsx line 49):
`card.id === activeCardId`; comparison with `null` is `false`. This is the
Selection Controller's `isSelected` query. -/
def isHighlighted (cardId : Int) (s : SelectionState) : Bool :=
  match s with
  | some activeCardId => cardId == activeCardId
  | none => false

/-- The id the default-middle computation would produce for a list, when it
exists: `cards[Math.floor((cards.length - 1) / 2)].id`. -/
def defaultMiddleId (cards : List CardData) : Option Int :=
  (cards.get? (middleIndex cards.length)).map (fun c => c.id)

/-- One externally driven operation on the Selection Controller during a
session: a list delivery (running the effect of card-grid.tsx lines 23-29)
or a user click (card-grid.tsx lines 31-33). -/
inductive SelectionOp where
  | initCards (cards : List CardData)
  | click (cardId : Int)
deriving Repr

/-- Apply one session operation to the `activeCardId` state. -/
def applySelectionOp (s : SelectionState) : SelectionOp → SelectionState
  | .initCards cards => initializeSelection cards s
  | .click cardId => selectCard cardId s

/-- Run a session from the initial `useState(null)` state
(card-grid.tsx line 20). -/
def runSelectionOps (ops : List SelectionOp) : SelectionState :=
  ops.foldl applySelectionOp none

/-- `CardGridProps` (card-grid.tsx lines 15-17): the only prop `CardGrid`
declares and destructures is `cards`. -/
structure CardGridProps where
  cards : List CardData
deriving DecidableEq, Repr

/-- The props supplied at the `Home` call site (src/src/app/page.tsx line 45):
`<CardGrid cards={serviceCards} highlightedCardId={2} />` — it passes an
extra `highlightedCardId` value alongside `cards`. -/
structure HomeCardGridCall where
  cards : List CardData
  highlightedCardId : Int
deriving DecidableEq, Repr

/-- `CardGrid` destructures only `{ cards }` from what the call site passes
(card-grid.tsx line 19); every other prop is dropped. -/
def cardGridAccepts (call : HomeCardGridCall) : CardGridProps :=
  { cards := call.cards }

/-- The selection state `CardGrid` reaches from mount: the default
initialization effect on the delivered list, followed by the user's clicks. -/
def cardGridSelection (props : CardGridProps) (clicks : List Int) : SelectionState :=
  clicks.foldl (fun s c => selectCard c s) (initializeSelection props.cards none)

/-! ## Notification Queue (toast system)

Embedded from the `toast-context.tsx` and `toast.tsx` sources reproduced at
src/src/components/ui/Card/card-body.tsx lines 480-585: `ToastProvider`
holds `toast : {message, type} | null`; `showToast` replaces it; the mounted
`Toast` schedules `onClose` (`setToast(null)`) after `duration = 3000` ms and
its effect cleanup runs `clearTimeout`, so at most one timeout is ever
pending, with deadline 3000 ms after the latest `showToast`. -/

/-- `ToastType` (card-body.tsx line 488): the four severities. -/
inductive ToastType where
  | success
  | error
  | warning
  | info
deriving DecidableEq, Repr

/-- The value held in `ToastProvider`'s state: `{ message, type }`
(card-body.tsx lines 496-500). -/
structure ToastData where
  message : String
  type : ToastType
deriving DecidableEq, Repr

/-- `Toast`'s default `duration = 3000` (card-body.tsx line 558). -/
def toastDuration : Nat := 3000

/-- The Notification Queue state: `ToastProvider`'s `toast` state plus the
deadline (absolute ms) of the single pending `setTimeout` managed by
`Toast`'s effect; `none` when no timeout is pending. -/
structure ToastState where
  toast : Option ToastData
  deadline : Option Nat
deriving DecidableEq, Repr

/-- The provider's initial state: `useState(null)`, no `Toast` mounted. -/
def initialToastState : ToastState :=
  { toast := none, deadline := none }

/-- `showToast` called at absolute time `t` (card-body.tsx lines 501-503):
`setToast({ message, type })`. Re-rendering `Toast` runs its effect cleanup
(`clearTimeout` of any previous timer, card-body.tsx line 565) and schedules
a fresh `onClose` at `t + duration` (lines 560-563). -/
def showToast (t : Nat) (message : String) (type : ToastType) (_s : ToastState) :
    ToastState :=
  { toast := some { message := message, type := type }
    deadline := some (t + toastDuration) }

/-- `onClose` / manual dismissal (card-body.tsx line 512): `setToast(null)`;
unmounting `Toast` runs the effect cleanup `clearTimeout`, cancelling the
pending timer. -/
def dismissToast (_s : ToastState) : ToastState :=
  { toast := none, deadline := none }

/-- Let wall-clock time reach `t`: the pending timeout fires exactly when its
deadline has been reached, running `onClose` (`setToast(null)`, and its own
cleanup clears the timer handle). -/
def elapseTo (t : Nat) (s : ToastState) : ToastState :=
  match s.deadline with
  | some e => if e ≤ t then { toast := none, deadline := none } else s
  | none => s

/-- `current()`: what the provider renders at time `t` — the conditional
`{toast && <Toast .../>}` of card-body.tsx lines 508-514, after any due
timer has fired. -/
def currentToast (t : Nat) (s : ToastState) : Option ToastData :=
  (elapseTo t s).toast

/-- The context value type (card-body.tsx lines 490-492): the `showToast`
capability exposed through `ToastContext`. -/
structure ToastContextType where
  showToast : String → ToastType → Nat → ToastState → ToastState

/-- `useToast` (card-body.tsx lines 519-525): reads the context, which is
`undefined` outside a `ToastProvider`, and throws
`useToast must be used within a ToastProvider` in that case. -/
def useToast (context : Option ToastContextType) : Except String ToastContextType :=
  match context with
  | none => Except.error "useToast must be used within a ToastProvider"
  | some ctx => Except.ok ctx

/-- The `serviceCards` list of src/src/app/page.tsx lines 4-30 (display text
abbreviated to its opening words; ids, labels and targets as in the source). -/
def serviceCards : List CardData :=
  [ { id := 1, title := "Vehicle Maintenance"
      description := "Regular maintenance services to keep your vehicle running smoothly."
      imageSrc := "https://res.cloudinary.com/total-dealer/image/upload/v1687754017/test/ford-ranger_rd5m4t.jpg"
      buttonText := "Learn More", buttonHref := some "/services/maintenance" }
  , { id := 2, title := "Repair Services"
      description := "Professional repair services for all makes and models."
      imageSrc := "https://res.cloudinary.com/total-dealer/image/upload/v1687754017/test/ford-ranger_rd5m4t.jpg"
      buttonText := "View Services", buttonHref := some "/services/repairs" }
  , { id := 3, title := "Custom Solutions"
      description := "Tailored automotive solutions to meet your specific needs."
      imageSrc := "https://res.cloudinary.com/total-dealer/image/upload/v1687754017/test/ford-ranger_rd5m4t.jpg"
      buttonText := "Get Started", buttonHref := some "/services/custom" } ]

/-- A concrete four-card list, exercising the even-length tie-break. -/
def fourCards : List CardData :=
  [ { id := 1, title := "a", description := "", imageSrc := "", buttonText := "", buttonHref := none }
  , { id := 2, title := "b", description := "", imageSrc := "", buttonText := "", buttonHref := none }
  , { id := 3, title := "c", description := "", imageSrc := "", buttonText := "", buttonHref := none }
  , { id := 4, title := "d", description := "", imageSrc := "", buttonText := "", buttonHref := none } ]

/-! ## Helper lemmas -/

/-- The default-middle index is in bounds for a non-empty list. -/
theorem middleIndex_lt_length (cards : List CardData) (h : cards ≠ []) :
    middleIndex cards.length < cards.length := by
  have hpos : 0 < cards.length := List.length_pos.mpr h
  unfold middleIndex
  omega

/-- When the middle lookup succeeds, the effect sets the selection to that
card's id, whatever the prior state. -/
theorem initializeSelection_of_get_eq {cards : List CardData} {c : CardData}
    (h : cards.get? (middleIndex cards.length) = some c) (s : SelectionState) :
    initializeSelection cards s = some c.id := by
  unfold initializeSelection
  rw [h]

/-- On a non-empty list the effect sets the selection to the middle card's id. -/
theorem initializeSelection_ne_nil (cards : List CardData) (s : SelectionState)
    (h : cards ≠ []) :
    initializeSelection cards s =
      some (cards.get ⟨middleIndex cards.length, middleIndex_lt_length cards h⟩).id :=
  initializeSelection_of_get_eq (List.get?_eq_get (middleIndex_lt_length cards h)) s

/-- One session operation never clears a set selection. -/
theorem applySelectionOp_isSome (s : SelectionState) (op : SelectionOp)
    (h : s.isSome = true) : (applySelectionOp s op).isSome = true := by
  cases op with
  | initCards cards =>
    show (initializeSelection cards s).isSome = true
    unfold initializeSelection
    cases cards.get? (middleIndex cards.length) with
    | none => exact h
    | some c => rfl
  | click cardId => rfl

/-- Folding session operations never clears a set selection. -/
theorem foldl_applySelectionOp_isSome (ops : List SelectionOp) (s : SelectionState)
    (h : s.isSome = true) : (ops.foldl applySelectionOp s).isSome = true := by
  induction ops generalizing s with
  | nil => exact h
  | cons op ops ih => exact ih _ (applySelectionOp_isSome s op h)

/-- Elapsing time over a freshly shown toast either fires its timer or leaves
it in place. -/
theorem elapseTo_showToast (t0 t : Nat) (m : String) (ty : ToastType) (s : ToastState) :
    elapseTo t (showToast t0 m ty s) =
      if t0 + toastDuration ≤ t then { toast := none, deadline := none }
      else showToast t0 m ty s := rfl

/-! ## Claim theorems -/

/-- C5: `select(x)` (the `handleButtonClick` of card-grid.tsx lines 31-33)
unconditionally sets `selectedId := x` from any prior state, after which
`isSelected(x)` holds and `isSelected(y)` fails for every `y ≠ x`: selection
is exclusive. -/
theorem selectCard_unconditional_exclusive (s : SelectionState) (x : Int) :
    selectCard x s = some x ∧
    isHighlighted x (selectCard x s) = true ∧
    ∀ y : Int, y ≠ x → isHighlighted y (selectCard x s) = false := by
  refine ⟨rfl, ?_, ?_⟩
  · simp [selectCard, isHighlighted]
  · intro y hy
    simp [selectCard, isHighlighted, hy]

/-- Witness for C5 at `x = 3`, `y = 5`, from the empty prior state. -/
theorem selectCard_unconditional_exclusive_witness :
    selectCard 3 none = some 3 ∧
    isHighlighted 3 (selectCard 3 none) = true ∧
    isHighlighted 5 (selectCard 3 none) = false := by
  obtain ⟨h1, h2, h3⟩ := selectCard_unconditional_exclusive none 3
  exact ⟨h1, h2, h3 5 (by decide)⟩

/-- C6: initializing with an empty card list makes no selection and does not
fail — from the initial `null` state the selection stays `none` and no card
id is highlighted (card-grid.tsx lines 23-29, the `cards.length > 0` guard). -/
theorem init_empty_no_selection :
    initializeSelection [] none = none ∧
    ∀ x : Int, isHighlighted x (initializeSelection [] none) = false := by
  exact ⟨rfl, fun x => rfl⟩

/-- C4: re-running the initialization effect on a (non-empty) list overwrites
any prior manual selection `select x` with the freshly computed middle id:
the result is the middle card's id and is independent of the prior state
(card-grid.tsx lines 23-29, keyed on `[cards]`). -/
theorem reinit_overwrites_manual_selection (cards : List CardData)
    (s : SelectionState) (x : Int) (hne : cards ≠ []) :
    initializeSelection cards (selectCard x s) = defaultMiddleId cards ∧
    initializeSelection cards (selectCard x s) = initializeSelection cards none ∧
    (defaultMiddleId cards).isSome = true := by
  have hlt := middleIndex_lt_length cards hne
  have hget : cards.get? (middleIndex cards.length) =
      some (cards.get ⟨middleIndex cards.length, hlt⟩) := List.get?_eq_get hlt
  refine ⟨?_, ?_, ?_⟩
  · rw [initializeSelection_of_get_eq hget, defaultMiddleId, hget]
    rfl
  · rw [initializeSelection_of_get_eq hget, initializeSelection_of_get_eq hget]
  · rw [defaultMiddleId, hget]
    rfl

/-- Witness for C4: selecting id 1 on the home page's three-card list and
re-initializing reverts the selection to the middle id 2. -/
theorem reinit_overwrites_manual_selection_witness :
    serviceCards ≠ [] ∧
    (initializeSelection serviceCards (selectCard 1 none) = defaultMiddleId serviceCards ∧
     initializeSelection serviceCards (selectCard 1 none) = initializeSelection serviceCards none ∧
     (defaultMiddleId serviceCards).isSome = true) ∧
    initializeSelection serviceCards (selectCard 1 none) = some 2 :=
  ⟨by decide, reinit_overwrites_manual_selection serviceCards none 1 (by decide), by decide⟩

/-- C8: over every session — any sequence of list deliveries and clicks —
`selectedId` starts as `none`, and once set it is never cleared back to
`none`; in particular a later delivery of an empty list leaves it set
(card-grid.tsx lines 20-33). -/
theorem selection_never_cleared :
    runSelectionOps [] = none ∧
    ∀ (ops rest : List SelectionOp),
      (runSelectionOps ops).isSome = true →
      (runSelectionOps (ops ++ rest)).isSome = true := by
  refine ⟨rfl, ?_⟩
  intro ops rest h
  rw [runSelectionOps, List.foldl_append]
  exact foldl_applySelectionOp_isSome rest _ h

/-- Witness for C8: click id 1, then deliver an empty list — the selection
stays set (and indeed stays `some 1`). -/
theorem selection_never_cleared_witness :
    runSelectionOps [] = none ∧
    (runSelectionOps [SelectionOp.click 1]).isSome = true ∧
    (runSelectionOps ([SelectionOp.click 1] ++ [SelectionOp.initCards []])).isSome = true ∧
    runSelectionOps ([SelectionOp.click 1] ++ [SelectionOp.initCards []]) = some 1 := by
  have h : (runSelectionOps [SelectionOp.click 1]).isSome = true := by decide
  exact ⟨selection_never_cleared.1,
    h,
    selection_never_cleared.2 [SelectionOp.click 1] [SelectionOp.initCards []] h,
    by decide⟩

/-- C10: `CardGrid`'s declared props contain only `cards`
(card-grid.tsx lines 15-17), so two call sites differing only in the extra
`highlightedCardId` value (the home page passes `highlightedCardId={2}`,
page.tsx line 45) produce identical selection states and identical
`isHighlighted` results for every click sequence: the prop is ignored. -/
theorem highlightedCardId_ignored (call1 call2 : HomeCardGridCall)
    (h : call1.cards = call2.cards) :
    ∀ (clicks : List Int) (x : Int),
      cardGridSelection (cardGridAccepts call1) clicks =
        cardGridSelection (cardGridAccepts call2) clicks ∧
      isHighlighted x (cardGridSelection (cardGridAccepts call1) clicks) =
        isHighlighted x (cardGridSelection (cardGridAccepts call2) clicks) := by
  intro clicks x
  have hp : cardGridAccepts call1 = cardGridAccepts call2 := by
    simp only [cardGridAccepts, h]
  rw [hp]
  exact ⟨rfl, rfl⟩

/-- Witness for C10: the home call site with `highlightedCardId` 2 versus 7,
same `serviceCards`, after clicking id 1. -/
theorem highlightedCardId_ignored_witness :
    cardGridSelection (cardGridAccepts ⟨serviceCards, 2⟩) [1] =
      cardGridSelection (cardGridAccepts ⟨serviceCards, 7⟩) [1] ∧
    isHighlighted 1 (cardGridSelection (cardGridAccepts ⟨serviceCards, 2⟩) [1]) =
      isHighlighted 1 (cardGridSelection (cardGridAccepts ⟨serviceCards, 7⟩) [1]) :=
  highlightedCardId_ignored ⟨serviceCards, 2⟩ ⟨serviceCards, 7⟩ rfl [1] 1

/-- C1: on any non-empty card list (with the data model's unique ids), after
initialization exactly one card is highlighted, and a card's position is
highlighted exactly when it is the default middle index
`⌊(n-1)/2⌋` — for even `n` the lower-indexed central element
(card-grid.tsx lines 23-29 and 49). -/
theorem default_selection_is_middle (cards : List CardData) (hne : cards ≠ [])
    (hnodup : (cards.map (fun c => c.id)).Nodup) :
    cards.countP (fun c => isHighlighted c.id (initializeSelection cards none)) = 1 ∧
    ∀ i : Fin cards.length,
      (isHighlighted (cards.get i).id (initializeSelection cards none) = true ↔
        (i : Nat) = middleIndex cards.length) := by
  have hlt := middleIndex_lt_length cards hne
  have hinit := initializeSelection_ne_nil cards none hne
  constructor
  · have hfun : (fun (c : CardData) => isHighlighted c.id (initializeSelection cards none)) =
        fun (c : CardData) => c.id == (cards.get ⟨middleIndex cards.length, hlt⟩).id := by
      funext c
      rw [hinit]
      rfl
    have hcp : (cards.map (fun c => c.id)).count
          (cards.get ⟨middleIndex cards.length, hlt⟩).id =
        cards.countP (fun (c : CardData) => c.id == (cards.get ⟨middleIndex cards.length, hlt⟩).id) := by
      rw [List.count_eq_countP, List.countP_map]
      rfl
    rw [hfun, ← hcp]
    exact List.count_eq_one_of_mem hnodup
      (List.mem_map.mpr ⟨cards.get ⟨middleIndex cards.length, hlt⟩, List.get_mem _ _ _, rfl⟩)
  · intro i
    rw [hinit]
    show ((cards.get i).id == (cards.get ⟨middleIndex cards.length, hlt⟩).id) = true ↔
      (i : Nat) = middleIndex cards.length
    rw [beq_iff_eq]
    have hi' : (i : Nat) < (cards.map (fun c => c.id)).length := by
      rw [List.length_map]
      exact i.isLt
    have hm' : middleIndex cards.length < (cards.map (fun c => c.id)).length := by
      rw [List.length_map]
      exact hlt
    have key := @List.Nodup.getElem_inj_iff Int (cards.map (fun c => c.id)) hnodup
      (i : Nat) hi' (middleIndex cards.length) hm'
    simp only [List.getElem_map] at key
    rw [List.get_eq_getElem, List.get_eq_getElem]
    exact key

/-- Witness for C1 at the four-card list with ids `[1,2,3,4]`: index 1
(id 2) is highlighted, confirming the lower-bias tie-break. -/
theorem default_selection_is_middle_witness :
    fourCards ≠ [] ∧ (fourCards.map (fun c => c.id)).Nodup ∧
    (fourCards.countP
        (fun c => isHighlighted c.id (initializeSelection fourCards none)) = 1 ∧
      ∀ i : Fin fourCards.length,
        (isHighlighted (fourCards.get i).id (initializeSelection fourCards none) = true ↔
          (i : Nat) = middleIndex fourCards.length)) ∧
    initializeSelection fourCards none = some 2 ∧
    middleIndex fourCards.length = 1 :=
  ⟨by decide, by decide,
    default_selection_is_middle fourCards (by decide) (by decide),
    by decide, by decide⟩

/-- C3: after `notify(msg)` at time `t0` with no intervening dismiss or
replacing notify, `current()` is that notification at every instant strictly
before `t0 + 3000` ms and `none` from `t0 + 3000` ms on
(card-body.tsx lines 558-566, `duration = 3000`). -/
theorem toast_expires_after_duration (s : ToastState) (t0 t : Nat)
    (m : String) (ty : ToastType) :
    (t < t0 + toastDuration →
      currentToast t (showToast t0 m ty s) = some { message := m, type := ty }) ∧
    (t0 + toastDuration ≤ t → currentToast t (showToast t0 m ty s) = none) := by
  constructor
  · intro h
    simp only [currentToast, elapseTo_showToast]
    rw [if_neg (by omega)]
    rfl
  · intro h
    simp only [currentToast, elapseTo_showToast]
    rw [if_pos h]

/-- Witness for C3: notify at 0, query at 2999 ms (still shown) and at
3000 ms (gone). -/
theorem toast_expires_after_duration_witness :
    (2999 < 0 + toastDuration ∧
      currentToast 2999 (showToast 0 "hi" ToastType.info initialToastState) =
        some { message := "hi", type := ToastType.info }) ∧
    (0 + toastDuration ≤ 3000 ∧
      currentToast 3000 (showToast 0 "hi" ToastType.info initialToastState) = none) :=
  ⟨⟨by decide,
      (toast_expires_after_duration initialToastState 0 2999 "hi" ToastType.info).1
        (by decide)⟩,
    ⟨by decide,
      (toast_expires_after_duration initialToastState 0 3000 "hi" ToastType.info).2
        (by decide)⟩⟩

/-- C2: `notify("A")` at `t1` then `notify("B")` at `t2` before A expires is
last-write-wins: at every instant the current notification is exactly B's
until B's own deadline `t2 + 3000` and `none` after — so A is never
observable (when A ≠ B) and A's superseded timer at `t1 + 3000` never clears
B (card-body.tsx lines 501-503 replace the state; lines 560-565 clear and
restart the single timer). -/
theorem toast_last_write_wins (s : ToastState) (t1 t2 : Nat)
    (mA mB : String) (tyA tyB : ToastType)
    (horder : t1 ≤ t2) (hbefore : t2 < t1 + toastDuration) :
    ∀ t : Nat,
      currentToast t (showToast t2 mB tyB (showToast t1 mA tyA s)) =
        (if t < t2 + toastDuration then some { message := mB, type := tyB } else none) ∧
      (({ message := mA, type := tyA } : ToastData) ≠ { message := mB, type := tyB } →
        currentToast t (showToast t2 mB tyB (showToast t1 mA tyA s)) ≠
          some { message := mA, type := tyA }) := by
  intro t
  have hchar : currentToast t (showToast t2 mB tyB (showToast t1 mA tyA s)) =
      if t < t2 + toastDuration then some { message := mB, type := tyB } else none := by
    simp only [currentToast, elapseTo_showToast]
    by_cases hc : t2 + toastDuration ≤ t
    · rw [if_pos hc, if_neg (by omega)]
    · rw [if_neg hc, if_pos (by omega)]
      rfl
  refine ⟨hchar, ?_⟩
  intro hne
  rw [hchar]
  by_cases hc : t < t2 + toastDuration
  · rw [if_pos hc]
    simp only [ne_eq, Option.some.injEq]
    exact fun h => hne h.symm
  · rw [if_neg hc]
    simp

/-- Witness for C2: A at 0, B at 1000; at 3000 ms (A's superseded deadline)
the current notification is still B, and B is never A. -/
theorem toast_last_write_wins_witness :
    (0 : Nat) ≤ 1000 ∧ 1000 < 0 + toastDuration ∧
    ({ message := "A", type := ToastType.info } : ToastData) ≠
      { message := "B", type := ToastType.info } ∧
    currentToast 3000
        (showToast 1000 "B" ToastType.info (showToast 0 "A" ToastType.info initialToastState)) =
      (if 3000 < 1000 + toastDuration
        then some { message := "B", type := ToastType.info } else none) ∧
    currentToast 3000
        (showToast 1000 "B" ToastType.info (showToast 0 "A" ToastType.info initialToastState)) ≠
      some { message := "A", type := ToastType.info } := by
  have h := toast_last_write_wins initialToastState 0 1000 "A" "B"
    ToastType.info ToastType.info (by decide) (by decide) 3000
  exact ⟨by decide, by decide, by decide, h.1, h.2 (by decide)⟩

/-- C7: `dismiss()` clears the active notification immediately regardless of
timer state — `current()` is `none` at every instant, in particular before
the expiry duration elapses — and cancels the pending expiry timer
(card-body.tsx line 512 `setToast(null)`; line 565 `clearTimeout`). -/
theorem dismiss_clears_immediately (s : ToastState) (t0 t : Nat)
    (m : String) (ty : ToastType) :
    currentToast t (dismissToast (showToast t0 m ty s)) = none ∧
    (dismissToast (showToast t0 m ty s)).deadline = none :=
  ⟨rfl, rfl⟩

/-- C9: calling `useToast` outside a `ToastProvider` — where the context is
its `undefined` default — throws
`useToast must be used within a ToastProvider` rather than returning a
no-op, while inside a provider it returns the context
(card-body.tsx lines 519-525). -/
theorem useToast_outside_provider_throws :
    useToast none = Except.error "useToast must be used within a ToastProvider" ∧
    ∀ ctx : ToastContextType, useToast (some ctx) = Except.ok ctx :=
  ⟨rfl, fun _ => rfl⟩

end Automotive
